import Mathlib

/-!
Shallow embedding of the personal-finance-cli core (src/models.py,
src/data_manager.py, src/summary_manager.py, src/settings_manager.py)
and proofs of the specification claims about it.

Modelling conventions:
* Python floats are modelled as rationals; the only arithmetic the code
  performs on amounts is addition, subtraction and order comparison.
* Python dicts are modelled as insertion-ordered association lists.
  `dictSet` replaces the value at the first (unique) occurrence of a key,
  keeping its position, exactly as assignment to an existing dict key does;
  a fresh key is appended at the end, as in Python.
* File I/O is modelled by keeping the file contents inside the store state;
  writes in this model always succeed (claims about save-failure divergence
  are not among the ones treated here).
* An uncaught Python exception is modelled by an `Option`-valued operation
  returning `none`.
-/

namespace FinanceCLI

/-! ## Ordered association lists (the model of Python `dict`) -/

/-- First-occurrence lookup: `d[k]` / `d.get(k)`. -/
def dictGet {V : Type} (d : List (String × V)) (k : String) : Option V :=
  match d with
  | [] => none
  | (k', v) :: rest => if k' = k then some v else dictGet rest k

/-- Model of `d[k] = v`: replace the value at the first occurrence of `k` in place,
or append `(k, v)` when `k` is absent — Python dict assignment keeps the
insertion position of an existing key. -/
def dictSet {V : Type} (d : List (String × V)) (k : String) (v : V) :
    List (String × V) :=
  match d with
  | [] => [(k, v)]
  | (k', v') :: rest =>
      if k' = k then (k, v) :: rest else (k', v') :: dictSet rest k v

/-- Model of `del d[k]`: Python dict keys are unique, so deleting every occurrence
from the association list coincides with deleting the single entry. -/
def dictDel {V : Type} (d : List (String × V)) (k : String) :
    List (String × V) :=
  d.filter (fun p => p.1 ≠ k)

/-- Model of `k in d`. -/
def dictHas {V : Type} (d : List (String × V)) (k : String) : Bool :=
  (dictGet d k).isSome

theorem dictGet_dictSet {V : Type} (d : List (String × V)) (k k' : String)
    (v : V) :
    dictGet (dictSet d k v) k' = if k' = k then some v else dictGet d k' := by
  induction d with
  | nil =>
      by_cases h : k' = k
      · subst h; simp [dictSet, dictGet]
      · have h2 : ¬k = k' := fun hh => h hh.symm
        simp [dictSet, dictGet, h, h2]
  | cons p rest ih =>
      obtain ⟨k₀, v₀⟩ := p
      by_cases h0 : k₀ = k
      · subst h0
        by_cases h : k' = k₀
        · subst h; simp [dictSet, dictGet]
        · have h2 : ¬k₀ = k' := fun hh => h hh.symm
          simp [dictSet, dictGet, h, h2]
      · by_cases h : k₀ = k'
        · subst h
          simp [dictSet, dictGet, h0]
        · have h2 : ¬k' = k₀ := fun hh => h hh.symm
          simp [dictSet, dictGet, h0, h, h2, ih]

theorem dictGet_dictDel {V : Type} (d : List (String × V)) (k k' : String) :
    dictGet (dictDel d k) k' = if k' = k then none else dictGet d k' := by
  induction d with
  | nil =>
      by_cases h : k' = k
      · subst h; simp [dictDel, dictGet]
      · simp [dictDel, dictGet, h]
  | cons p rest ih =>
      obtain ⟨k₀, v₀⟩ := p
      by_cases h0 : k₀ = k
      · subst h0
        by_cases h : k' = k₀
        · subst h; simp_all [dictDel, dictGet]
        · have h2 : ¬k₀ = k' := fun hh => h hh.symm
          simp_all [dictDel, dictGet, h2]
      · by_cases h : k₀ = k'
        · subst h
          simp_all [dictDel, dictGet]
        · have h2 : ¬k' = k₀ := fun hh => h hh.symm
          simp_all [dictDel, dictGet, h2]

/-! ## models.py — `Transaction` -/

/-- A `Transaction` object (src/models.py). The `amount` is a Python float,
modelled as a rational; all other fields are strings exactly as stored. -/
structure Transaction where
  id : String
  amount : ℚ
  category : String
  description : String
  transaction_type : String
  date : String
deriving DecidableEq

/-- The JSON object produced by `Transaction.to_dict`: the same six fields. -/
structure TransactionDict where
  id : String
  amount : ℚ
  category : String
  description : String
  transaction_type : String
  date : String
deriving DecidableEq

/-- Model of `Transaction.to_dict` (src/models.py lines 22-31). -/
def to_dict (t : Transaction) : TransactionDict :=
  ⟨t.id, t.amount, t.category, t.description, t.transaction_type, t.date⟩

/-- Model of `Transaction.from_dict` (src/models.py lines 33-44): the constructor call
generates a fresh id and date, but both are immediately overwritten by
`data["id"]` and `data["date"]`, so the result is a pure record built from
the dictionary fields. -/
def from_dict (d : TransactionDict) : Transaction :=
  ⟨d.id, d.amount, d.category, d.description, d.transaction_type, d.date⟩

/-! ## data_manager.py — `DataManager` (the TransactionStore) -/

/-- One element of the JSON array in the transactions file.  `good d` is an
object carrying all six fields that `Transaction.from_dict` subscripts;
`bad` is any other JSON value (an object missing a required key, or a
non-object), on which `from_dict` raises an uncaught `KeyError`/`TypeError`. -/
inductive TItem where
  | good (d : TransactionDict)
  | bad
deriving DecidableEq

/-- Contents of the transactions file as `json.load` sees them.
`badJson` covers a missing file or text that is not valid JSON
(`FileNotFoundError` / `json.JSONDecodeError`, both caught by `load`);
`jsonArray` is a top-level JSON array.  Valid JSON that is not an array is
split by how the list comprehension `[Transaction.from_dict(item) for item
in data]` iterates it (verified by execution): `jsonEmptyIter` is a value
whose iteration yields no items — the empty object or the empty string —
so the comprehension succeeds with the empty list; `jsonBadIter` is any
other non-array value — a non-empty object or string, whose items are
strings that `from_dict` cannot subscript, or a number, boolean or null,
which is not iterable — raising an uncaught `TypeError`. -/
inductive TFile where
  | badJson
  | jsonArray (items : List TItem)
  | jsonEmptyIter
  | jsonBadIter
deriving DecidableEq

/-- In-memory and on-disk state of a `DataManager`. -/
structure DataState where
  transactions : List Transaction
  file : TFile
deriving DecidableEq

/-- Model of `[Transaction.from_dict(item) for item in data]`: succeeds only when
every array element is a well-formed transaction object. -/
def decodeItems : List TItem → Option (List Transaction)
  | [] => some []
  | TItem.good d :: rest => (decodeItems rest).map (from_dict d :: ·)
  | TItem.bad :: _ => none

/-- Model of `DataManager.load_transactions` (src/data_manager.py lines 23-33).
`none` models an uncaught exception escaping the method: only
`json.JSONDecodeError` and `FileNotFoundError` are caught. -/
def load_transactions (s : DataState) :
    Option (List Transaction × DataState) :=
  match s.file with
  | TFile.badJson => some ([], { s with transactions := [] })
  | TFile.jsonEmptyIter => some ([], { s with transactions := [] })
  | TFile.jsonBadIter => none
  | TFile.jsonArray items =>
      match decodeItems items with
      | some ts => some (ts, { s with transactions := ts })
      | none => none

/-- Model of `DataManager.save_transactions` (src/data_manager.py lines 35-44):
serialises every in-memory transaction with `to_dict` and rewrites the whole
file; in this model the write always succeeds and returns `True`. -/
def save_transactions (s : DataState) : Bool × DataState :=
  (true, { s with
    file := TFile.jsonArray (s.transactions.map (fun t => TItem.good (to_dict t))) })

/-- Model of `DataManager.get_all_transactions` (src/data_manager.py lines 55-57),
in state-passing form: the body reads `self.transactions` and writes nothing. -/
def get_all_transactions (s : DataState) : List Transaction × DataState :=
  (s.transactions, s)

/-- Model of `DataManager.get_transactions_by_type` (src/data_manager.py lines 59-61). -/
def get_transactions_by_type (s : DataState) (transaction_type : String) :
    List Transaction × DataState :=
  (s.transactions.filter (fun t => t.transaction_type = transaction_type), s)

/-- The record returned by `get_balance`. -/
structure BalanceRecord where
  total_income : ℚ
  total_expense : ℚ
  balance : ℚ
deriving DecidableEq

/-- Model of `DataManager.get_balance` (src/data_manager.py lines 63-73): the two
totals are generator sums guarded by the transaction type, mirrored here by
`filterMap`; `balance` is their difference. -/
def get_balance (s : DataState) : BalanceRecord × DataState :=
  let total_income :=
    (s.transactions.filterMap (fun t =>
      if t.transaction_type = "income" then some t.amount else none)).sum
  let total_expense :=
    (s.transactions.filterMap (fun t =>
      if t.transaction_type = "expense" then some t.amount else none)).sum
  (⟨total_income, total_expense, total_income - total_expense⟩, s)

/-- Model of `DataManager.get_categories` (src/data_manager.py lines 75-85):
`list(set(...))` deduplicates with unspecified order; `eraseDups` models the
deduplication. -/
def get_categories (s : DataState) : (List String × List String) × DataState :=
  let income_categories :=
    (s.transactions.filterMap (fun t =>
      if t.transaction_type = "income" then some t.category else none)).eraseDups
  let expense_categories :=
    (s.transactions.filterMap (fun t =>
      if t.transaction_type = "expense" then some t.category else none)).eraseDups
  ((income_categories, expense_categories), s)

/-! ## summary_manager.py — the date parser

`_extract_month_from_date` calls
`datetime.strptime(date_string, "%Y-%m-%d %H:%M:%S")`.  CPython 3.11 compiles
the format to the regular expression

  `(?P<Y>\d\d\d\d)-(?P<m>1[0-2]|0[1-9]|[1-9])-`
  `(?P<d>3[0-1]|[1-2]\d|0[1-9]|[1-9]| [1-9])\s+`
  `(?P<H>2[0-3]|[0-1]\d|\d):(?P<M>[0-5]\d|\d):(?P<S>6[0-1]|[0-5]\d|\d)`

matched against the whole string (trailing text raises "unconverted data
remains"), converts each captured group with `int`, and validates the values
through the `datetime` constructor; a failure of either step raises
`ValueError`, which the method catches.  The model below reproduces this
exactly, including the Unicode behaviour of a string pattern: `\d` matches
every Unicode decimal digit (category `Nd`) with its decimal value, while
the explicit digit classes such as `[1-9]` match ASCII only, and `\s`
(substituted for the literal space of the format) matches the Unicode
whitespace set.  Committing to a two-character alternative of a field is
exact: the alternatives are disjoint in their first character, and the
second character is always a digit, which can never be consumed by the
following separator (`-`, `:`, whitespace or end of input), so the regex
never has to backtrack into a shorter alternative after a longer one
matched.  The `datetime` constructor then requires `year ≥ 1`, a day that
exists in the given month and year, and `second ≤ 59` (the year is at most
9999 by the four-digit match; every other field is in range by the regex).
-/

/-- Start code points of the decades of Unicode decimal digits (category
`Nd`) matched by `\d` in a CPython string regex; each decade holds the
digits 0-9 in order, so the decimal value used by `int()` is the offset
from the decade start.  Extracted from the running CPython 3.11 / Unicode
14 tables (66 decades, 660 characters). -/
def ndDecadeStarts : List Nat :=
  [0x30, 0x660, 0x6F0, 0x7C0, 0x966, 0x9E6, 0xA66, 0xAE6, 0xB66, 0xBE6,
   0xC66, 0xCE6, 0xD66, 0xDE6, 0xE50, 0xED0, 0xF20, 0x1040, 0x1090, 0x17E0,
   0x1810, 0x1946, 0x19D0, 0x1A80, 0x1A90, 0x1B50, 0x1BB0, 0x1C40, 0x1C50,
   0xA620, 0xA8D0, 0xA900, 0xA9D0, 0xA9F0, 0xAA50, 0xABF0, 0xFF10, 0x104A0,
   0x10D30, 0x11066, 0x110F0, 0x11136, 0x111D0, 0x112F0, 0x11450, 0x114D0,
   0x11650, 0x116C0, 0x11730, 0x118E0, 0x11950, 0x11C50, 0x11D50, 0x11DA0,
   0x16A60, 0x16AC0, 0x16B50, 0x1D7CE, 0x1D7D8, 0x1D7E2, 0x1D7EC, 0x1D7F6,
   0x1E140, 0x1E2F0, 0x1E950, 0x1FBF0]

/-- Decimal value of a `\d` character: `some v` when the character is a
Unicode decimal digit of value `v`, `none` otherwise. -/
def ndVal (c : Char) : Option Nat :=
  (ndDecadeStarts.find? (fun s => s ≤ c.toNat && c.toNat ≤ s + 9)).map
    (fun s => c.toNat - s)

/-- Value of a character when it is an ASCII digit in the class
`[lo-hi]` (an explicit range of the pattern, which unlike `\d` matches
ASCII only), `none` otherwise. -/
def asciiDigitIn (c : Char) (lo hi : Nat) : Option Nat :=
  if '0'.toNat ≤ c.toNat && c.toNat ≤ '9'.toNat then
    let v := c.toNat - '0'.toNat
    if lo ≤ v && v ≤ hi then some v else none
  else none

/-- The characters matched by `\s` in a CPython string regex (the
substitution for the literal space of the format): ASCII whitespace, the
information separators, NEL, and the Unicode space characters.  Extracted
from the running CPython 3.11 (29 characters). -/
def isSpaceChar (c : Char) : Bool :=
  [0x09, 0x0A, 0x0B, 0x0C, 0x0D, 0x1C, 0x1D, 0x1E, 0x1F, 0x20, 0x85, 0xA0,
   0x1680, 0x2000, 0x2001, 0x2002, 0x2003, 0x2004, 0x2005, 0x2006, 0x2007,
   0x2008, 0x2009, 0x200A, 0x2028, 0x2029, 0x202F, 0x205F,
   0x3000].contains c.toNat

/-- Match one literal character. -/
def expectChar (c : Char) : List Char → Option (List Char)
  | a :: rest => if a = c then some rest else none
  | [] => none

/-- Match `\s+`, one or more whitespace characters (the following field
starts with a digit, never whitespace, so greedily consuming the whole run
is exact). -/
def skipSpaces1 : List Char → Option (List Char)
  | a :: rest =>
      if isSpaceChar a then some (rest.dropWhile isSpaceChar) else none
  | [] => none

/-- Match `%Y` = `\d\d\d\d`: exactly four Unicode decimal digits. -/
def parseYear4 : List Char → Option (Nat × List Char)
  | a :: b :: c :: d :: rest =>
      match ndVal a, ndVal b, ndVal c, ndVal d with
      | some va, some vb, some vc, some vd =>
          some (1000 * va + 100 * vb + 10 * vc + vd, rest)
      | _, _, _, _ => none
  | _ => none

/-- Match `%m` = `1[0-2]|0[1-9]|[1-9]` (ASCII digits only). -/
def parseMonth : List Char → Option (Nat × List Char)
  | a :: b :: rest =>
      match asciiDigitIn a 1 1, asciiDigitIn b 0 2 with
      | some _, some vb => some (10 + vb, rest)
      | _, _ =>
        match asciiDigitIn a 0 0, asciiDigitIn b 1 9 with
        | some _, some vb => some (vb, rest)
        | _, _ =>
          match asciiDigitIn a 1 9 with
          | some va => some (va, b :: rest)
          | none => none
  | [a] =>
      match asciiDigitIn a 1 9 with
      | some va => some (va, [])
      | none => none
  | [] => none

/-- Match `%d` = `3[0-1]|[1-2]\d|0[1-9]|[1-9]| [1-9]`: the second character
of `[1-2]\d` may be any Unicode decimal digit, and the last alternative is
a literal space (exactly U+0020) followed by an ASCII digit 1-9. -/
def parseDay : List Char → Option (Nat × List Char)
  | a :: b :: rest =>
      match asciiDigitIn a 3 3, asciiDigitIn b 0 1 with
      | some _, some vb => some (30 + vb, rest)
      | _, _ =>
        match asciiDigitIn a 1 2, ndVal b with
        | some va, some vb => some (10 * va + vb, rest)
        | _, _ =>
          match asciiDigitIn a 0 0, asciiDigitIn b 1 9 with
          | some _, some vb => some (vb, rest)
          | _, _ =>
            match asciiDigitIn a 1 9 with
            | some va => some (va, b :: rest)
            | none =>
              if a = ' ' then
                match asciiDigitIn b 1 9 with
                | some vb => some (vb, rest)
                | none => none
              else none
  | [a] =>
      match asciiDigitIn a 1 9 with
      | some va => some (va, [])
      | none => none
  | [] => none

/-- Match `%H` = `2[0-3]|[0-1]\d|\d`. -/
def parseHour : List Char → Option (Nat × List Char)
  | a :: b :: rest =>
      match asciiDigitIn a 2 2, asciiDigitIn b 0 3 with
      | some _, some vb => some (20 + vb, rest)
      | _, _ =>
        match asciiDigitIn a 0 1, ndVal b with
        | some va, some vb => some (10 * va + vb, rest)
        | _, _ =>
          match ndVal a with
          | some va => some (va, b :: rest)
          | none => none
  | [a] =>
      match ndVal a with
      | some va => some (va, [])
      | none => none
  | [] => none

/-- Match `%M` = `[0-5]\d|\d`. -/
def parseMinute : List Char → Option (Nat × List Char)
  | a :: b :: rest =>
      match asciiDigitIn a 0 5, ndVal b with
      | some va, some vb => some (10 * va + vb, rest)
      | _, _ =>
        match ndVal a with
        | some va => some (va, b :: rest)
        | none => none
  | [a] =>
      match ndVal a with
      | some va => some (va, [])
      | none => none
  | [] => none

/-- Match `%S` = `6[0-1]|[0-5]\d|\d`. -/
def parseSecond : List Char → Option (Nat × List Char)
  | a :: b :: rest =>
      match asciiDigitIn a 6 6, asciiDigitIn b 0 1 with
      | some _, some vb => some (60 + vb, rest)
      | _, _ =>
        match asciiDigitIn a 0 5, ndVal b with
        | some va, some vb => some (10 * va + vb, rest)
        | _, _ =>
          match ndVal a with
          | some va => some (va, b :: rest)
          | none => none
  | [a] =>
      match ndVal a with
      | some va => some (va, [])
      | none => none
  | [] => none

/-- Gregorian leap-year rule, as used by `datetime`. -/
def isLeapYear (y : Nat) : Bool :=
  (y % 4 = 0 && y % 100 ≠ 0) || y % 400 = 0

/-- Number of days in a month, as validated by the `datetime` constructor. -/
def daysInMonth (y m : Nat) : Nat :=
  if m = 2 then (if isLeapYear y then 29 else 28)
  else if m = 4 || m = 6 || m = 9 || m = 11 then 30
  else 31

/-- Model of `datetime.strptime(date_string, "%Y-%m-%d %H:%M:%S")`,
returning the six captured fields, or `none` when the regular expression
fails to match the whole string or the `datetime` constructor rejects the
captured values. -/
def strptimeCanonical (date_string : String) :
    Option (Nat × Nat × Nat × Nat × Nat × Nat) := do
  let (y, l1) ← parseYear4 date_string.data
  let l2 ← expectChar '-' l1
  let (mo, l3) ← parseMonth l2
  let l4 ← expectChar '-' l3
  let (dd, l5) ← parseDay l4
  let l6 ← skipSpaces1 l5
  let (hh, l7) ← parseHour l6
  let l8 ← expectChar ':' l7
  let (mi, l9) ← parseMinute l8
  let l10 ← expectChar ':' l9
  let (ss, l11) ← parseSecond l10
  -- "unconverted data remains" check: the match must reach the end
  guard (l11 = [])
  -- datetime constructor validation (year ≤ 9999 holds by the 4-digit match)
  guard (1 ≤ y)
  guard (dd ≤ daysInMonth y mo)
  guard (ss ≤ 59)
  return (y, mo, dd, hh, mi, ss)

/-- Zero-padded decimal rendering of width `w`. -/
def padNum (n w : Nat) : String :=
  let s := toString n
  String.mk (List.replicate (w - s.length) '0') ++ s

/-- Model of `date_obj.strftime("%Y-%m")` on this platform: glibc renders
`%Y` as the year in unpadded decimal (four digits exactly when the year is
at least 1000; verified by execution, e.g. year 500 renders as "500"),
and `%m` as the zero-padded two-digit month. -/
def formatMonthKey (y mo : Nat) : String :=
  toString y ++ "-" ++ padNum mo 2

/-- The `YYYY-MM` rendering in the words of the specification claim: a
four-digit zero-padded year followed by the two-digit month.  It differs
from the `strftime` rendering `formatMonthKey` exactly on years below
1000. -/
def formatMonthKeyPadded (y mo : Nat) : String :=
  padNum y 4 ++ "-" ++ padNum mo 2

/-- Model of `SummaryManager._extract_month_from_date`
(src/summary_manager.py lines 24-35). -/
def extract_month_from_date (date_string : String) : String :=
  match strptimeCanonical date_string with
  | some (y, mo, _, _, _, _) => formatMonthKey y mo
  | none => date_string.take 7

/-! ## summary_manager.py — `SummaryManager` (the SummaryLedger) -/

/-- A month entry of the summary mapping. -/
structure MonthSummary where
  income : ℚ
  expense : ℚ
  net : ℚ
deriving DecidableEq

/-- In-memory mapping and persisted file of a `SummaryManager`. -/
structure SummaryState where
  summary_data : List (String × MonthSummary)
  file : List (String × MonthSummary)
deriving DecidableEq

/-- Model of `SummaryManager.save_summary` (src/summary_manager.py lines 51-61):
rewrites the whole file with the given mapping; the write always succeeds in
this model. -/
def save_summary (s : SummaryState) (data : List (String × MonthSummary)) :
    Bool × SummaryState :=
  (true, { s with file := data })

/-- The shared accumulation step of `update_summary` and
`rebuild_summary_from_transactions`: initialise the month entry to the zero
triple when absent, add the amount to `income` or `expense` according to the
transaction type (any other type adds to neither), and recompute
`net = income - expense`. -/
def accumulate (data : List (String × MonthSummary)) (t : Transaction) :
    List (String × MonthSummary) :=
  let month := extract_month_from_date t.date
  let cur := match dictGet data month with
    | some v => v
    | none => ⟨0, 0, 0⟩
  let cur :=
    if t.transaction_type = "income" then
      { cur with income := cur.income + t.amount }
    else if t.transaction_type = "expense" then
      { cur with expense := cur.expense + t.amount }
    else cur
  let cur := { cur with net := cur.income - cur.expense }
  dictSet data month cur

/-- Model of `SummaryManager.update_summary` (src/summary_manager.py lines 63-97). -/
def update_summary (s : SummaryState) (t : Transaction) : Bool × SummaryState :=
  let data := accumulate s.summary_data t
  save_summary { s with summary_data := data } data

/-- Model of `SummaryManager.get_summary` (src/summary_manager.py lines 99-113):
returns a copy of the stored triple, or the zero triple when the month is
absent; a total function with no failure outcome. -/
def get_summary (s : SummaryState) (month : String) :
    MonthSummary × SummaryState :=
  match dictGet s.summary_data month with
  | some v => (v, s)
  | none => (⟨0, 0, 0⟩, s)

/-- Insert into a sorted list of strings. -/
def insertSorted (x : String) : List String → List String
  | [] => [x]
  | y :: ys => if x ≤ y then x :: y :: ys else y :: insertSorted x ys

/-- Comparison sort of strings; `sorted()` over a totally ordered key set is
determined by the order alone, so insertion sort gives the same list. -/
def sortStrings : List String → List String
  | [] => []
  | x :: xs => insertSorted x (sortStrings xs)

/-- Model of `SummaryManager.get_all_months` (src/summary_manager.py lines 115-119). -/
def get_all_months (s : SummaryState) : List String × SummaryState :=
  (sortStrings (s.summary_data.map Prod.fst), s)

/-- Model of `SummaryManager.get_yearly_summary` (src/summary_manager.py lines
121-137): accumulates income and expense over the months starting with the
given year and returns their difference as `net`. -/
def get_yearly_summary (s : SummaryState) (year : String) :
    MonthSummary × SummaryState :=
  let totals := s.summary_data.foldl
    (fun (acc : ℚ × ℚ) p =>
      if p.1.startsWith year then (acc.1 + p.2.income, acc.2 + p.2.expense)
      else acc)
    (0, 0)
  (⟨totals.1, totals.2, totals.1 - totals.2⟩, s)

/-- Model of `SummaryManager.delete_month_summary` (src/summary_manager.py lines
139-150): deletes a present month and persists; an absent month is a
successful no-op. -/
def delete_month_summary (s : SummaryState) (month : String) :
    Bool × SummaryState :=
  if dictHas s.summary_data month then
    let data := dictDel s.summary_data month
    save_summary { s with summary_data := data } data
  else (true, s)

/-- Model of `SummaryManager.rebuild_summary_from_transactions`
(src/summary_manager.py lines 152-189): resets the mapping and folds the
accumulation step over the given transactions, then persists once. -/
def rebuild_summary_from_transactions (s : SummaryState)
    (ts : List Transaction) : Bool × SummaryState :=
  let data := ts.foldl accumulate []
  save_summary { s with summary_data := data } data

/-- The mutating operations of the SummaryLedger, for reachability claims. -/
inductive SummaryOp where
  | update (t : Transaction)
  | rebuild (ts : List Transaction)
  | deleteMonth (month : String)

/-- Apply a mutating SummaryLedger operation to a state. -/
def applySummaryOp (s : SummaryState) (op : SummaryOp) : SummaryState :=
  match op with
  | SummaryOp.update t => (update_summary s t).2
  | SummaryOp.rebuild ts => (rebuild_summary_from_transactions s ts).2
  | SummaryOp.deleteMonth m => (delete_month_summary s m).2

/-- The state reached from the empty mapping by a sequence of operations. -/
def runSummaryOps (ops : List SummaryOp) : SummaryState :=
  ops.foldl applySummaryOp ⟨[], []⟩

/-! ## settings_manager.py — `SettingsManager` (the SettingsStore) -/

/-- A settings value: a number (Python `int` or `float`; `set_monthly_limit`
coerces with `float`, the identity on this rational model) or any other
JSON-serialisable value, represented by a string. -/
inductive SettingValue where
  | num (q : ℚ)
  | str (s : String)
deriving DecidableEq

/-- In-memory settings and persisted file of a `SettingsManager`; a `none`
file is missing or unreadable (`FileNotFoundError` / `json.JSONDecodeError`). -/
structure SettingsState where
  settings : List (String × SettingValue)
  file : Option (List (String × SettingValue))
deriving DecidableEq

/-- Model of `self.default_settings` (src/settings_manager.py lines 13-16). -/
def default_settings : List (String × SettingValue) :=
  [("monthly_limit", SettingValue.num 0)]

/-- Model of `SettingsManager.save_settings` (src/settings_manager.py lines 58-69):
rewrites the whole file with the current settings; the write always succeeds
in this model. -/
def save_settings (s : SettingsState) : Bool × SettingsState :=
  (true, { s with file := some s.settings })

/-- Model of `SettingsManager._create_default_settings`
(src/settings_manager.py lines 27-32). -/
def create_default_settings (s : SettingsState) : SettingsState :=
  (save_settings { s with settings := default_settings }).2

/-- Model of `dict.update`: fold assignment over the given key-value pairs. -/
def dictUpdate {V : Type} (d : List (String × V)) (kvs : List (String × V)) :
    List (String × V) :=
  kvs.foldl (fun m kv => dictSet m kv.1 kv.2) d

/-- Model of `SettingsManager.load_settings` (src/settings_manager.py lines 34-56):
merge the loaded mapping over a copy of the defaults; on a read or parse
failure, recreate the defaults file and report failure. -/
def load_settings (s : SettingsState) : Bool × SettingsState :=
  match s.file with
  | some kvs => (true, { s with settings := dictUpdate default_settings kvs })
  | none => (false, create_default_settings s)

/-- Model of `SettingsManager.__init__` on a fresh install
(src/settings_manager.py lines 10-25): no file yet, so the defaults are
created and persisted. -/
def initSettings : SettingsState :=
  create_default_settings ⟨[], none⟩

/-- Model of `SettingsManager.get_monthly_limit` (src/settings_manager.py lines
71-75), in state-passing form. -/
def get_monthly_limit (s : SettingsState) : SettingValue × SettingsState :=
  ((dictGet s.settings "monthly_limit").getD (SettingValue.num 0), s)

/-- Model of `SettingsManager.set_monthly_limit` (src/settings_manager.py lines
77-106): a non-numeric or negative limit raises `ValueError`, caught before
any state change, returning `False`; otherwise the coerced value is stored
and persisted. -/
def set_monthly_limit (s : SettingsState) (limit : SettingValue) :
    Bool × SettingsState :=
  match limit with
  | SettingValue.num q =>
      if q < 0 then (false, s)
      else
        save_settings
          { s with settings :=
              (dictSet s.settings "monthly_limit" (SettingValue.num q)) }
  | _ => (false, s)

/-- Model of `SettingsManager.get_setting` (src/settings_manager.py lines 108-119):
`settings.get(key, default_value)`, where `default_value` may itself be the
absent value `None` (modelled by `Option`). -/
def get_setting (s : SettingsState) (key : String)
    (default_value : Option SettingValue) :
    Option SettingValue × SettingsState :=
  (match dictGet s.settings key with
   | some v => some v
   | none => default_value, s)

/-- Model of `SettingsManager.set_setting` (src/settings_manager.py lines 121-137):
stores any value under any key, with no validation, and persists. -/
def set_setting (s : SettingsState) (key : String) (value : SettingValue) :
    Bool × SettingsState :=
  save_settings { s with settings := dictSet s.settings key value }

/-- Model of `SettingsManager.get_all_settings` (src/settings_manager.py lines
139-143): returns a copy of the settings mapping. -/
def get_all_settings (s : SettingsState) :
    List (String × SettingValue) × SettingsState :=
  (s.settings, s)

/-- Model of `SettingsManager.reset_to_defaults` (src/settings_manager.py lines
145-154). -/
def reset_to_defaults (s : SettingsState) : Bool × SettingsState :=
  save_settings { s with settings := default_settings }

/-- Model of `SettingsManager.update_settings` (src/settings_manager.py lines
156-171): `dict.update` with the given pairs, then one persist. -/
def update_settings (s : SettingsState)
    (new_settings : List (String × SettingValue)) : Bool × SettingsState :=
  save_settings { s with settings := dictUpdate s.settings new_settings }

/-- Model of `SettingsManager.delete_setting` (src/settings_manager.py lines
173-193): refuses to delete a protected default key; deletes and persists a
present key; an absent key is a successful no-op. -/
def delete_setting (s : SettingsState) (key : String) : Bool × SettingsState :=
  if dictHas default_settings key then (false, s)
  else if dictHas s.settings key then
    save_settings { s with settings := dictDel s.settings key }
  else (true, s)

/-- The SettingsStore operations named by the reachability claims. -/
inductive SettingsOp where
  | load
  | setMonthlyLimit (v : SettingValue)
  | setSetting (key : String) (v : SettingValue)
  | updateMany (kvs : List (String × SettingValue))
  | deleteKey (key : String)
  | reset

/-- Apply a SettingsStore operation to a state. -/
def applySettingsOp (s : SettingsState) (op : SettingsOp) : SettingsState :=
  match op with
  | SettingsOp.load => (load_settings s).2
  | SettingsOp.setMonthlyLimit v => (set_monthly_limit s v).2
  | SettingsOp.setSetting k v => (set_setting s k v).2
  | SettingsOp.updateMany kvs => (update_settings s kvs).2
  | SettingsOp.deleteKey k => (delete_setting s k).2
  | SettingsOp.reset => (reset_to_defaults s).2

/-- The state reached from a fresh install by a sequence of operations. -/
def runSettingsOps (ops : List SettingsOp) : SettingsState :=
  ops.foldl applySettingsOp initSettings

/-- The operations that route numeric input through the validation in
`set_monthly_limit`: everything except `set_setting` and `update_settings`,
which write arbitrary values without validation. -/
def safeSettingsOp : SettingsOp → Bool
  | SettingsOp.setSetting _ _ => false
  | SettingsOp.updateMany _ => false
  | _ => true

/-! ## Sample data used by witnesses -/

/-- A concrete income transaction (the §8 scenario of the specification). -/
def sampleTransaction : Transaction :=
  ⟨"20240701120000000000", 1000, "Salary", "July pay", "income",
   "2024-07-01 12:00:00"⟩

/-- A concrete transaction whose type is neither income nor expense. -/
def sampleTransfer : Transaction :=
  ⟨"20240801000000000000", 50, "Misc", "internal move", "transfer",
   "2024-08-01 00:00:00"⟩

/-- A concrete summary state holding one month. -/
def sampleSummaryState : SummaryState :=
  ⟨[("2024-07", ⟨1000, 300, 700⟩)], [("2024-07", ⟨1000, 300, 700⟩)]⟩

/-! ## Claim C1 -/

theorem sum_filterMap_amount (ts : List Transaction) (ty : String) :
    (ts.filterMap (fun t =>
      if t.transaction_type = ty then some t.amount else none)).sum =
    ((ts.filter (fun t => t.transaction_type = ty)).map
      Transaction.amount).sum := by
  induction ts with
  | nil => rfl
  | cons t rest ih =>
      by_cases h : t.transaction_type = ty <;>
        simp [List.filterMap_cons, List.filter_cons, h, ih]

/-- Claim C1: for every TransactionStore state, `get_balance` returns a
record whose `balance` is `total_income - total_expense`, and whose two
totals are the sums of the amounts over the subsequences returned by
`get_transactions_by_type "income"` and `get_transactions_by_type
"expense"`. -/
theorem claim_C1 (s : DataState) :
    (get_balance s).1.balance =
      (get_balance s).1.total_income - (get_balance s).1.total_expense ∧
    (get_balance s).1.total_income =
      (((get_transactions_by_type s "income").1).map Transaction.amount).sum ∧
    (get_balance s).1.total_expense =
      (((get_transactions_by_type s "expense").1).map Transaction.amount).sum := by
  refine ⟨rfl, ?_, ?_⟩ <;>
    simp [get_balance, get_transactions_by_type, sum_filterMap_amount]

/-! ## Claim C4 -/

theorem from_dict_to_dict (t : Transaction) : from_dict (to_dict t) = t := rfl

theorem decodeItems_encode (ts : List Transaction) :
    decodeItems (ts.map (fun t => TItem.good (to_dict t))) = some ts := by
  induction ts with
  | nil => rfl
  | cons t rest ih => simp [decodeItems, ih, from_dict_to_dict]

/-- Claim C4: saving a non-empty TransactionStore and loading it back yields
the same sequence of transactions, field by field (list equality of the
six-field records). -/
theorem claim_C4 (s : DataState) (_nonempty : s.transactions ≠ []) :
    load_transactions (save_transactions s).2 =
      some (s.transactions, (save_transactions s).2) := by
  simp [load_transactions, save_transactions, decodeItems_encode]

theorem claim_C4_witness :
    (DataState.transactions ⟨[sampleTransaction], TFile.badJson⟩) ≠ [] ∧
    load_transactions (save_transactions ⟨[sampleTransaction], TFile.badJson⟩).2 =
      some ([sampleTransaction],
        (save_transactions ⟨[sampleTransaction], TFile.badJson⟩).2) :=
  ⟨by simp, claim_C4 ⟨[sampleTransaction], TFile.badJson⟩ (by simp)⟩

/-! ## Claim C6 (corrected) -/

/-- Claim C6 counterexample: the date string `0500-01-02 03:04:05` parses
in the canonical format, and the code renders its month-key with
`strftime("%Y-%m")` as `500-01` (glibc leaves years below 1000 unpadded;
verified by execution), not the four-digit `YYYY-MM` rendering `0500-01`
named by the claim. -/
theorem claim_C6_counterexample :
    strptimeCanonical "0500-01-02 03:04:05" = some (500, 1, 2, 3, 4, 5) ∧
    extract_month_from_date "0500-01-02 03:04:05" = "500-01" ∧
    formatMonthKeyPadded 500 1 = "0500-01" ∧
    ("500-01" : String) ≠ "0500-01" := by
  refine ⟨by decide, by decide, by decide, by decide⟩

/-- Claim C6, amended: the month-key derived from a date string is the
`strftime("%Y-%m")` rendering of the parsed date — the year in unpadded
decimal (four digits exactly when the year is at least 1000) followed by
the zero-padded two-digit month — when the string parses under CPython
`strptime` with the canonical format `%Y-%m-%d %H:%M:%S`, and the first
seven characters of the raw string otherwise. -/
theorem claim_C6 (d : String) :
    (∀ y mo dd hh mi ss,
      strptimeCanonical d = some (y, mo, dd, hh, mi, ss) →
        extract_month_from_date d = formatMonthKey y mo) ∧
    (strptimeCanonical d = none → extract_month_from_date d = d.take 7) := by
  constructor
  · intro y mo dd hh mi ss h
    simp [extract_month_from_date, h]
  · intro h
    simp [extract_month_from_date, h]

theorem claim_C6_witness :
    strptimeCanonical "2024-07-15 10:30:00" = some (2024, 7, 15, 10, 30, 0) ∧
    extract_month_from_date "2024-07-15 10:30:00" = formatMonthKey 2024 7 ∧
    strptimeCanonical "٢٠٢٤-7-1 10:30:00" = some (2024, 7, 1, 10, 30, 0) ∧
    extract_month_from_date "٢٠٢٤-7-1 10:30:00" = formatMonthKey 2024 7 ∧
    strptimeCanonical "not-a-date" = none ∧
    extract_month_from_date "not-a-date" = "not-a-date".take 7 :=
  ⟨by decide,
   (claim_C6 "2024-07-15 10:30:00").1 2024 7 15 10 30 0 (by decide),
   by decide,
   (claim_C6 "٢٠٢٤-7-1 10:30:00").1 2024 7 1 10 30 0 (by decide),
   by decide,
   (claim_C6 "not-a-date").2 (by decide)⟩

/-! ## Claim C7 -/

/-- Claim C7: `get_summary` is total and returns the stored triple for a
present month and the zero triple for an absent one; after a successful
`delete_month_summary` the month reads back as the zero triple. -/
theorem claim_C7 (s : SummaryState) (month : String) :
    (∀ v, dictGet s.summary_data month = some v →
      (get_summary s month).1 = v) ∧
    (dictGet s.summary_data month = none →
      (get_summary s month).1 = ⟨0, 0, 0⟩) ∧
    ((delete_month_summary s month).1 = true →
      (get_summary (delete_month_summary s month).2 month).1 = ⟨0, 0, 0⟩) := by
  refine ⟨?_, ?_, ?_⟩
  · intro v hv
    simp [get_summary, hv]
  · intro hv
    simp [get_summary, hv]
  · intro _
    by_cases h : dictHas s.summary_data month
    · simp [delete_month_summary, h, save_summary, get_summary, dictGet_dictDel]
    · have hnone : dictGet s.summary_data month = none := by
        unfold dictHas at h
        cases hd : dictGet s.summary_data month
        · rfl
        · rw [hd] at h; simp at h
      simp [delete_month_summary, h, get_summary, hnone]

theorem claim_C7_witness :
    (get_summary sampleSummaryState "2024-07").1 = ⟨1000, 300, 700⟩ ∧
    (get_summary sampleSummaryState "2024-08").1 = ⟨0, 0, 0⟩ ∧
    (delete_month_summary sampleSummaryState "2024-07").1 = true ∧
    (get_summary (delete_month_summary sampleSummaryState "2024-07").2
      "2024-07").1 = ⟨0, 0, 0⟩ :=
  ⟨(claim_C7 sampleSummaryState "2024-07").1 ⟨1000, 300, 700⟩ (by decide),
   (claim_C7 sampleSummaryState "2024-08").2.1 (by decide),
   by decide,
   (claim_C7 sampleSummaryState "2024-07").2.2 (by decide)⟩

/-! ## Claim C9 -/

/-- Claim C9: every query operation of the three stores leaves the store
state unchanged — each state-passing body returns the input state as its
state component. -/
theorem claim_C9 (ds : DataState) (ss : SummaryState) (st : SettingsState)
    (ty month year key : String) (fallback : Option SettingValue) :
    (get_all_transactions ds).2 = ds ∧
    (get_transactions_by_type ds ty).2 = ds ∧
    (get_balance ds).2 = ds ∧
    (get_categories ds).2 = ds ∧
    (get_summary ss month).2 = ss ∧
    (get_all_months ss).2 = ss ∧
    (get_yearly_summary ss year).2 = ss ∧
    (get_monthly_limit st).2 = st ∧
    (get_setting st key fallback).2 = st ∧
    (get_all_settings st).2 = st := by
  refine ⟨rfl, rfl, rfl, rfl, ?_, rfl, rfl, rfl, rfl, rfl⟩
  unfold get_summary
  cases dictGet ss.summary_data month <;> rfl

/-! ## Claim C2 -/

/-- The invariant: every stored month triple has `net = income - expense`. -/
def NetInv (data : List (String × MonthSummary)) : Prop :=
  ∀ m v, dictGet data m = some v → v.net = v.income - v.expense

theorem netInv_nil : NetInv [] := by
  intro m v hv
  simp [dictGet] at hv

theorem netInv_accumulate (data : List (String × MonthSummary))
    (t : Transaction) (h : NetInv data) : NetInv (accumulate data t) := by
  intro m v hv
  unfold accumulate at hv
  rw [dictGet_dictSet] at hv
  by_cases hm : m = extract_month_from_date t.date
  · rw [if_pos hm] at hv
    obtain rfl := Option.some.inj hv
    rfl
  · rw [if_neg hm] at hv
    exact h m v hv

theorem netInv_foldl (ts : List Transaction)
    (data : List (String × MonthSummary)) (h : NetInv data) :
    NetInv (ts.foldl accumulate data) := by
  induction ts generalizing data with
  | nil => exact h
  | cons t rest ih => exact ih _ (netInv_accumulate data t h)

theorem netInv_dictDel (data : List (String × MonthSummary)) (k : String)
    (h : NetInv data) : NetInv (dictDel data k) := by
  intro m v hv
  rw [dictGet_dictDel] at hv
  by_cases hm : m = k
  · rw [if_pos hm] at hv; cases hv
  · rw [if_neg hm] at hv; exact h m v hv

theorem netInv_applySummaryOp (s : SummaryState) (op : SummaryOp)
    (h : NetInv s.summary_data) : NetInv (applySummaryOp s op).summary_data := by
  cases op with
  | update t =>
      simpa [applySummaryOp, update_summary, save_summary] using
        netInv_accumulate s.summary_data t h
  | rebuild ts =>
      simpa [applySummaryOp, rebuild_summary_from_transactions, save_summary]
        using netInv_foldl ts [] netInv_nil
  | deleteMonth m =>
      by_cases hm : dictHas s.summary_data m
      · simpa [applySummaryOp, delete_month_summary, hm, save_summary] using
          netInv_dictDel s.summary_data m h
      · simpa [applySummaryOp, delete_month_summary, hm] using h

theorem netInv_runSummaryOps (ops : List SummaryOp) :
    NetInv (runSummaryOps ops).summary_data := by
  unfold runSummaryOps
  have step : ∀ s : SummaryState, NetInv s.summary_data →
      NetInv (ops.foldl applySummaryOp s).summary_data := by
    induction ops with
    | nil => intro s h; exact h
    | cons op rest ih =>
        intro s h
        exact ih _ (netInv_applySummaryOp s op h)
  exact step ⟨[], []⟩ netInv_nil

/-- Claim C2: in every SummaryLedger state reachable from the empty mapping
by `update_summary`, `rebuild_summary_from_transactions` and
`delete_month_summary`, every stored month triple satisfies
`net = income - expense` exactly. -/
theorem claim_C2 (ops : List SummaryOp) (m : String) (v : MonthSummary)
    (h : dictGet (runSummaryOps ops).summary_data m = some v) :
    v.net = v.income - v.expense :=
  netInv_runSummaryOps ops m v h

theorem claim_C2_witness :
    dictGet (runSummaryOps [SummaryOp.update sampleTransaction]).summary_data
      "2024-07" = some ⟨1000, 0, 1000⟩ ∧ (1000 : ℚ) = 1000 - 0 := by
  have hget : dictGet
      (runSummaryOps [SummaryOp.update sampleTransaction]).summary_data
      "2024-07" = some ⟨1000, 0, 1000⟩ := by
    have hm : extract_month_from_date "2024-07-01 12:00:00" = "2024-07" := by
      decide
    simp [runSummaryOps, applySummaryOp, update_summary, save_summary,
      accumulate, sampleTransaction, hm, dictGet, dictSet]
  exact ⟨hget,
    claim_C2 [SummaryOp.update sampleTransaction] "2024-07" ⟨1000, 0, 1000⟩
      hget⟩

/-! ## Claim C10 -/

theorem mem_insertSorted (x a : String) (l : List String) :
    a ∈ insertSorted x l ↔ a = x ∨ a ∈ l := by
  induction l with
  | nil => simp [insertSorted]
  | cons y ys ih =>
      by_cases h : x ≤ y
      · simp [insertSorted, h]
      · simp [insertSorted, h, ih]
        tauto

theorem mem_sortStrings (a : String) (l : List String) :
    a ∈ sortStrings l ↔ a ∈ l := by
  induction l with
  | nil => simp [sortStrings]
  | cons x xs ih => simp [sortStrings, mem_insertSorted, ih]

/-- Claim C10: a transaction whose type is neither income nor expense still
creates (when absent) and persists a zero triple under its month-key,
returns success, and the month-key subsequently appears in
`get_all_months`. -/
theorem claim_C10 (s : SummaryState) (t : Transaction)
    (h1 : t.transaction_type ≠ "income")
    (h2 : t.transaction_type ≠ "expense") :
    (update_summary s t).1 = true ∧
    (update_summary s t).2.file = (update_summary s t).2.summary_data ∧
    extract_month_from_date t.date ∈ (get_all_months (update_summary s t).2).1 ∧
    (dictGet s.summary_data (extract_month_from_date t.date) = none →
      dictGet (update_summary s t).2.summary_data
        (extract_month_from_date t.date) = some ⟨0, 0, 0⟩) := by
  refine ⟨rfl, rfl, ?_, ?_⟩
  · have hget : dictGet (update_summary s t).2.summary_data
        (extract_month_from_date t.date) ≠ none := by
      simp [update_summary, save_summary, accumulate, dictGet_dictSet]
    simp only [get_all_months, mem_sortStrings]
    revert hget
    generalize (update_summary s t).2.summary_data = data
    intro hget
    induction data with
    | nil => simp [dictGet] at hget
    | cons p rest ih =>
        by_cases hp : p.1 = extract_month_from_date t.date
        · simp [hp]
        · simp only [dictGet, hp, if_false] at hget
          simp [ih hget]
  · intro habs
    simp [update_summary, save_summary, accumulate, habs, h1, h2,
      dictGet_dictSet]

theorem claim_C10_witness :
    (update_summary ⟨[], []⟩ sampleTransfer).1 = true ∧
    (update_summary ⟨[], []⟩ sampleTransfer).2.file =
      (update_summary ⟨[], []⟩ sampleTransfer).2.summary_data ∧
    extract_month_from_date sampleTransfer.date ∈
      (get_all_months (update_summary ⟨[], []⟩ sampleTransfer).2).1 ∧
    dictGet (update_summary ⟨[], []⟩ sampleTransfer).2.summary_data
      (extract_month_from_date sampleTransfer.date) = some ⟨0, 0, 0⟩ :=
  ⟨(claim_C10 ⟨[], []⟩ sampleTransfer (by decide) (by decide)).1,
   (claim_C10 ⟨[], []⟩ sampleTransfer (by decide) (by decide)).2.1,
   (claim_C10 ⟨[], []⟩ sampleTransfer (by decide) (by decide)).2.2.1,
   (claim_C10 ⟨[], []⟩ sampleTransfer (by decide) (by decide)).2.2.2 (by decide)⟩

/-! ## Claim C5 -/

/-- Claim C5: `set_monthly_limit` on a negative number reports failure,
persists nothing and leaves the whole state (hence `get_monthly_limit`)
unchanged; on a non-negative number it succeeds and stores the value
(`float` coercion is the identity on this rational model). -/
theorem claim_C5 (s : SettingsState) (q : ℚ) :
    (q < 0 →
      (set_monthly_limit s (SettingValue.num q)).1 = false ∧
      (set_monthly_limit s (SettingValue.num q)).2 = s ∧
      (get_monthly_limit (set_monthly_limit s (SettingValue.num q)).2).1 =
        (get_monthly_limit s).1) ∧
    (0 ≤ q →
      (set_monthly_limit s (SettingValue.num q)).1 = true ∧
      dictGet (set_monthly_limit s (SettingValue.num q)).2.settings
        "monthly_limit" = some (SettingValue.num q)) := by
  constructor
  · intro hq
    simp [set_monthly_limit, hq]
  · intro hq
    have hq2 : ¬q < 0 := not_lt.mpr hq
    simp [set_monthly_limit, hq2, save_settings, dictGet_dictSet]

theorem claim_C5_witness :
    ((-5 : ℚ) < 0) ∧
    ((set_monthly_limit initSettings (SettingValue.num (-5))).1 = false ∧
     (set_monthly_limit initSettings (SettingValue.num (-5))).2 =
       initSettings ∧
     (get_monthly_limit (set_monthly_limit initSettings
        (SettingValue.num (-5))).2).1 = (get_monthly_limit initSettings).1) ∧
    ((0 : ℚ) ≤ 250) ∧
    ((set_monthly_limit initSettings (SettingValue.num 250)).1 = true ∧
     dictGet (set_monthly_limit initSettings
        (SettingValue.num 250)).2.settings "monthly_limit" =
       some (SettingValue.num 250)) :=
  ⟨by norm_num, (claim_C5 initSettings (-5)).1 (by norm_num),
   by norm_num, (claim_C5 initSettings 250).2 (by norm_num)⟩

/-! ## Claim C8 (corrected) -/

/-- Claim C8 counterexample: a transactions file holding the well-formed
JSON array `[{}]` fails to parse as the expected structure, yet
`load_transactions` raises an uncaught `KeyError` from
`Transaction.from_dict` (modelled by `none`) instead of resetting the store
to the empty sequence — only `json.JSONDecodeError` and `FileNotFoundError`
are caught. -/
theorem claim_C8_counterexample :
    load_transactions ⟨[], TFile.jsonArray [TItem.bad]⟩ = none := rfl

/-- Claim C8, amended: when the persisted file fails to parse as JSON at all
(or is missing), `load_transactions` resets the in-memory sequence to empty,
returns the empty list without an uncaught fault, and
`get_all_transactions` subsequently returns the empty sequence. -/
theorem claim_C8_theorem (s : DataState) (h : s.file = TFile.badJson) :
    load_transactions s = some ([], { s with transactions := [] }) ∧
    (get_all_transactions { s with transactions := [] }).1 = [] := by
  simp [load_transactions, h, get_all_transactions]

theorem claim_C8_witness :
    (DataState.file ⟨[sampleTransaction], TFile.badJson⟩ = TFile.badJson) ∧
    (load_transactions ⟨[sampleTransaction], TFile.badJson⟩ =
      some ([], ⟨[], TFile.badJson⟩) ∧
     (get_all_transactions ⟨[], TFile.badJson⟩).1 = []) :=
  ⟨rfl, claim_C8_theorem ⟨[sampleTransaction], TFile.badJson⟩ rfl⟩

/-! ## Claim C3 (corrected) -/

theorem isSome_dictGet_iff_mem_keys {V : Type} (d : List (String × V))
    (k : String) :
    (dictGet d k).isSome = true ↔ k ∈ d.map Prod.fst := by
  induction d with
  | nil => simp [dictGet]
  | cons p rest ih =>
      by_cases h : p.1 = k
      · simp [dictGet, h]
      · have h2 : ¬k = p.1 := fun hh => h hh.symm
        simp [dictGet, h, h2, ih]

theorem dictGet_eq_none_of_not_mem {V : Type} (d : List (String × V))
    (k : String) (h : k ∉ d.map Prod.fst) : dictGet d k = none := by
  cases hd : dictGet d k with
  | none => rfl
  | some v =>
      exact absurd ((isSome_dictGet_iff_mem_keys d k).mp (by simp [hd])) h

theorem keys_dictSet {V : Type} (d : List (String × V)) (k : String) (v : V) :
    (dictSet d k v).map Prod.fst =
      if k ∈ d.map Prod.fst then d.map Prod.fst
      else d.map Prod.fst ++ [k] := by
  induction d with
  | nil => simp [dictSet]
  | cons p rest ih =>
      by_cases h : p.1 = k
      · simp [dictSet, h]
      · have h2 : ¬k = p.1 := fun hh => h hh.symm
        by_cases hm : k ∈ rest.map Prod.fst <;>
          simp [dictSet, h, h2, hm, ih]

theorem nodup_keys_dictSet {V : Type} (d : List (String × V)) (k : String)
    (v : V) (h : (d.map Prod.fst).Nodup) :
    ((dictSet d k v).map Prod.fst).Nodup := by
  rw [keys_dictSet]
  by_cases hm : k ∈ d.map Prod.fst
  · simpa [hm] using h
  · simp [hm, List.nodup_append, h]

theorem nodup_keys_dictUpdate {V : Type} (kvs d : List (String × V))
    (h : (d.map Prod.fst).Nodup) :
    ((dictUpdate d kvs).map Prod.fst).Nodup := by
  induction kvs generalizing d with
  | nil => exact h
  | cons kv rest ih =>
      have step : dictUpdate d (kv :: rest) =
          dictUpdate (dictSet d kv.1 kv.2) rest := by
        simp [dictUpdate]
      rw [step]
      exact ih _ (nodup_keys_dictSet d kv.1 kv.2 h)

theorem nodup_keys_dictDel {V : Type} (d : List (String × V)) (k : String)
    (h : (d.map Prod.fst).Nodup) : ((dictDel d k).map Prod.fst).Nodup :=
  List.Nodup.sublist (List.Sublist.map Prod.fst (List.filter_sublist d)) h

theorem dictGet_dictUpdate_nodup {V : Type} (kvs d : List (String × V))
    (k : String) (hnd : (kvs.map Prod.fst).Nodup) :
    dictGet (dictUpdate d kvs) k =
      match dictGet kvs k with
      | some v => some v
      | none => dictGet d k := by
  induction kvs generalizing d with
  | nil => simp [dictUpdate, dictGet]
  | cons kv rest ih =>
      obtain ⟨k₀, v₀⟩ := kv
      have hnd' : (rest.map Prod.fst).Nodup := (List.nodup_cons.mp hnd).2
      have hk0 : k₀ ∉ rest.map Prod.fst := (List.nodup_cons.mp hnd).1
      have step : dictUpdate d ((k₀, v₀) :: rest) =
          dictUpdate (dictSet d k₀ v₀) rest := by
        simp [dictUpdate]
      rw [step, ih _ hnd']
      by_cases h : k = k₀
      · subst h
        have hrest : dictGet rest k = none :=
          dictGet_eq_none_of_not_mem rest k hk0
        simp [hrest, dictGet, dictGet_dictSet]
      · have h2 : ¬k₀ = k := fun hh => h hh.symm
        cases hrest : dictGet rest k <;>
          simp [hrest, dictGet, h2, dictGet_dictSet, h]

/-- The key-value list stores a non-negative number under `monthly_limit`
and has no duplicate keys (Python dict keys are unique). -/
def MLSettingsOK (kvs : List (String × SettingValue)) : Prop :=
  (∃ q, dictGet kvs "monthly_limit" = some (SettingValue.num q) ∧ 0 ≤ q) ∧
  (kvs.map Prod.fst).Nodup

/-- The invariant carried through SettingsStore operation sequences: the
in-memory settings and (when readable) the persisted file both store a
non-negative `monthly_limit`. -/
def MLok (s : SettingsState) : Prop :=
  MLSettingsOK s.settings ∧ ∀ kvs, s.file = some kvs → MLSettingsOK kvs

theorem mlok_defaults : MLSettingsOK default_settings := by
  constructor
  · exact ⟨0, by simp [default_settings, dictGet], le_refl 0⟩
  · simp [default_settings]

theorem mlok_init : MLok initSettings := by
  constructor
  · exact mlok_defaults
  · intro kvs hk
    simp only [initSettings, create_default_settings, save_settings] at hk
    obtain rfl := Option.some.inj hk
    exact mlok_defaults

theorem mlok_applySettingsOp (s : SettingsState) (op : SettingsOp)
    (hsafe : safeSettingsOp op = true) (h : MLok s) :
    MLok (applySettingsOp s op) := by
  obtain ⟨⟨⟨q, hq, hq0⟩, hnd⟩, hfile⟩ := h
  cases op with
  | load =>
      cases hf : s.file with
      | none =>
          simp only [applySettingsOp, load_settings, hf,
            create_default_settings, save_settings]
          exact ⟨mlok_defaults, fun kvs hk => by
            obtain rfl := Option.some.inj hk
            exact mlok_defaults⟩
      | some kvs =>
          obtain ⟨⟨qf, hqf, hqf0⟩, hndf⟩ := hfile kvs hf
          have hmerged : MLSettingsOK (dictUpdate default_settings kvs) := by
            constructor
            · refine ⟨qf, ?_, hqf0⟩
              rw [dictGet_dictUpdate_nodup kvs default_settings
                "monthly_limit" hndf, hqf]
            · exact nodup_keys_dictUpdate kvs default_settings
                mlok_defaults.2
          simp only [applySettingsOp, load_settings, hf]
          exact ⟨hmerged, fun kvs' hk' => by
            obtain rfl := Option.some.inj hk'
            exact ⟨⟨qf, hqf, hqf0⟩, hndf⟩⟩
  | setMonthlyLimit v =>
      cases v with
      | num qv =>
          by_cases hneg : qv < 0
          · simp only [applySettingsOp, set_monthly_limit, if_pos hneg]
            exact ⟨⟨⟨q, hq, hq0⟩, hnd⟩, hfile⟩
          · have hok : MLSettingsOK
                (dictSet s.settings "monthly_limit" (SettingValue.num qv)) := by
              constructor
              · exact ⟨qv, by rw [dictGet_dictSet]; simp, le_of_not_lt hneg⟩
              · exact nodup_keys_dictSet _ _ _ hnd
            simp only [applySettingsOp, set_monthly_limit, if_neg hneg,
              save_settings]
            exact ⟨hok, fun kvs hk => by
              obtain rfl := Option.some.inj hk
              exact hok⟩
      | str sv =>
          simp only [applySettingsOp, set_monthly_limit]
          exact ⟨⟨⟨q, hq, hq0⟩, hnd⟩, hfile⟩
  | setSetting k v => simp [safeSettingsOp] at hsafe
  | updateMany kvs => simp [safeSettingsOp] at hsafe
  | deleteKey k =>
      by_cases hprot : dictHas default_settings k
      · simp only [applySettingsOp, delete_setting, hprot, if_true]
        exact ⟨⟨⟨q, hq, hq0⟩, hnd⟩, hfile⟩
      · have hkml : ¬"monthly_limit" = k := by
          intro hh
          rw [← hh] at hprot
          simp [dictHas, default_settings, dictGet] at hprot
        by_cases hpres : dictHas s.settings k
        · have hok : MLSettingsOK (dictDel s.settings k) := by
            constructor
            · refine ⟨q, ?_, hq0⟩
              rw [dictGet_dictDel, if_neg hkml]
              exact hq
            · exact nodup_keys_dictDel _ _ hnd
          simp only [applySettingsOp, delete_setting, hprot, hpres,
            save_settings, Bool.false_eq_true, if_false, if_true]
          exact ⟨hok, fun kvs hk => by
            obtain rfl := Option.some.inj hk
            exact hok⟩
        · simp only [applySettingsOp, delete_setting, hprot, hpres,
            Bool.false_eq_true, if_false]
          exact ⟨⟨⟨q, hq, hq0⟩, hnd⟩, hfile⟩
  | reset =>
      simp only [applySettingsOp, reset_to_defaults, save_settings]
      exact ⟨mlok_defaults, fun kvs hk => by
        obtain rfl := Option.some.inj hk
        exact mlok_defaults⟩

theorem mlok_run (ops : List SettingsOp)
    (hsafe : ∀ op ∈ ops, safeSettingsOp op = true) :
    MLok (runSettingsOps ops) := by
  unfold runSettingsOps
  have step : ∀ (l : List SettingsOp) (s : SettingsState),
      (∀ op ∈ l, safeSettingsOp op = true) → MLok s →
      MLok (l.foldl applySettingsOp s) := by
    intro l
    induction l with
    | nil => intro s _ hs; exact hs
    | cons op rest ih =>
        intro s hl hs
        exact ih _ (fun o ho => hl o (List.mem_cons_of_mem _ ho))
          (mlok_applySettingsOp s op (hl op (List.mem_cons_self _ _)) hs)
  exact step ops initSettings hsafe mlok_init

/-- Claim C3 counterexample: `set_setting` performs no validation, so one
`set_setting("monthly_limit", -5)` call reaches a state whose stored
`monthly_limit` is the negative number -5, refuting the claim that every
operation sequence keeps the key non-negative. -/
theorem claim_C3_counterexample :
    dictGet (runSettingsOps [SettingsOp.setSetting "monthly_limit"
        (SettingValue.num (-5))]).settings "monthly_limit" =
      some (SettingValue.num (-5)) ∧ (-5 : ℚ) < 0 := by
  constructor
  · simp [runSettingsOps, applySettingsOp, initSettings,
      create_default_settings, save_settings, set_setting, default_settings,
      dictSet, dictGet]
  · norm_num

/-- Claim C3, amended: in every SettingsStore state reachable by a sequence
of `load_settings`, `set_monthly_limit`, `delete_setting` and
`reset_to_defaults` (the operations other than `set_setting` and
`update_settings`, which store arbitrary values without validation), the
value stored under `monthly_limit` is a non-negative number. -/
theorem claim_C3_theorem (ops : List SettingsOp)
    (hsafe : ∀ op ∈ ops, safeSettingsOp op = true) :
    ∃ q, dictGet (runSettingsOps ops).settings "monthly_limit" =
      some (SettingValue.num q) ∧ 0 ≤ q :=
  (mlok_run ops hsafe).1.1

theorem claim_C3_witness :
    (∀ op ∈ [SettingsOp.setMonthlyLimit (SettingValue.num 5)],
      safeSettingsOp op = true) ∧
    ∃ q, dictGet (runSettingsOps
        [SettingsOp.setMonthlyLimit (SettingValue.num 5)]).settings
      "monthly_limit" = some (SettingValue.num q) ∧ 0 ≤ q :=
  ⟨by simp [safeSettingsOp],
   claim_C3_theorem [SettingsOp.setMonthlyLimit (SettingValue.num 5)]
     (by simp [safeSettingsOp])⟩

end FinanceCLI
